import Mathlib

/-!
# Verification of the skybooker booking lifecycle orchestrator

Shallow embedding of the booking core of the repository:

* `backend/src/services/bookingService.ts` — `BookingService.createBooking`,
  `updateBooking`, `cancelBooking`, `syncWithAmadeus`;
* `backend/src/utils/pnrGenerator.ts` — `generatePNR`,
  `generateBookingReference`, `validatePNR`, `isPNRValid`,
  `formatPNRForDisplay`;
* the `Booking` mongoose schema — unique constraints on `pnr` and
  `bookingReference`, `canBeModified`.

Embedding conventions:

* Money is modelled as exact rationals (`ℚ`); `parseFloat` of a decimal
  price string is the corresponding rational (e.g. "299.99" ↦ 29999/100).
* Timestamps (`Date.now()`, `new Date()`) are natural numbers of
  milliseconds, threaded as explicit `now` arguments.
* The remote Amadeus client (`AmadeusService`) is an external collaborator:
  each call's outcome is an input of type `AmadeusResult` (`ok orderId`
  for a successful response, `error msg` for any thrown failure — network
  error, rejection or timeout).  `createBooking` and `cancelBooking` catch
  remote failures and continue (mirroring their try/catch blocks);
  `syncWithAmadeus` lets them propagate.
* Randomness of the identifier generators is an input: the sequence of
  `crypto.randomInt` draws (as `Fin` values bounded by the alphabet size)
  plus the `Date.now()` timestamp used by `generatePNR`'s suffix.
* Side-effect ordering of `createBooking`/`cancelBooking` is reified as a
  trace of `Event`s returned alongside the result, in the order the
  source issues them: identifier generation, remote calls, store saves.
* The durable store enforces the schema's unique constraints on
  `pnr`/`bookingReference` (`BookingStore`); a save that violates them
  yields `BookingError.duplicateKey` (mongo duplicate-key error), which
  `createBooking` rethrows.
* JavaScript truthiness of optional strings (`if (x)`, `x || y`) is
  modelled by testing `Option.some` together with `≠ ""`.
* Fields of the `Booking` document never read by the operations under
  verification (flight segment snapshots, payment record, metadata,
  `userId`) are omitted; crash paths of the source (accessing
  `passengers[0]` or `flightOffers[0]` of an empty array) are modelled as
  `BookingError.typeError` at the same point of the control flow.
* The `Booking` schema file present in the repository predates the
  service and lacks `statusHistory`.  Modelled from the spec: the schema
  consumed by `bookingService` declares `statusHistory` as an append-only
  sequence of `(status, changedAt, reason)` entries that grows only when
  a transition appends to it, so a freshly constructed document has an
  empty history (corroborated by the controller's timeline code, which
  prepends a synthetic "Booking Created" event precisely because the
  history holds no creation entry).
-/

namespace Skybooker

/-- Reservation status, from the schema's `status` enum. -/
inductive BookingStatus
  | pending
  | confirmed
  | cancelled
  | completed
  | expired
  | refunded
deriving DecidableEq, Repr

/-- One `statusHistory` entry: `(status, changedAt, reason)`. -/
structure StatusHistoryEntry where
  status : BookingStatus
  changedAt : Nat
  reason : String
deriving DecidableEq, Repr

/-- Postal address, from `contactInfo.address`. -/
structure Address where
  street : String
  city : String
  state : String
  postalCode : String
  country : String
deriving DecidableEq, Repr

/-- Booking contact information, from `contactInfo`. -/
structure ContactInfo where
  email : String
  phone : String
  address : Address
deriving DecidableEq, Repr

/-- A stored passenger record, as built by `createBooking` (the fields the
booking operations read and write). -/
structure Passenger where
  id : String
  firstName : String
  lastName : String
  contactEmail : String
  contactPhone : String
  specialRequests : List String
  seatAssignment : Option String
deriving DecidableEq, Repr

/-- The `price` object of an Amadeus flight offer: currency, base fare,
total, and fee amounts (each `parseFloat`ed to an exact rational). -/
structure OfferPrice where
  currency : String
  base : ℚ
  total : ℚ
  fees : List ℚ
deriving DecidableEq, Repr

/-- An Amadeus flight offer, restricted to the fields `createBooking`
reads for pricing. -/
structure FlightOffer where
  id : String
  price : OfferPrice
deriving DecidableEq, Repr

/-- One entry of `pricing.breakdown`. -/
structure PricingBreakdownEntry where
  offerId : String
  basePrice : ℚ
  taxes : ℚ
  total : ℚ
deriving DecidableEq, Repr

/-- The `pricing` sub-document built by `createBooking`. -/
structure Pricing where
  currency : String
  basePrice : ℚ
  taxes : ℚ
  fees : List ℚ
  totalPrice : ℚ
  breakdown : List PricingBreakdownEntry
deriving DecidableEq, Repr

/-- The booking document, restricted to the fields the booking-service
operations read or write. -/
structure Booking where
  pnr : String
  bookingReference : String
  amadeusOrderId : Option String
  status : BookingStatus
  statusHistory : List StatusHistoryEntry
  passengers : List Passenger
  contactInfo : ContactInfo
  pricing : Pricing
  specialRequests : List String
  remarks : Option String
  bookedAt : Nat
  expiresAt : Nat
  cancelledAt : Option Nat
  cancellationReason : Option String
  updatedAt : Nat
  lastSyncedAt : Option Nat
deriving DecidableEq, Repr

/-- Outcome of a single Amadeus client call: a successful response
carrying the remote order id, or a thrown failure (transport error,
rejection, timeout). -/
inductive AmadeusResult
  | ok (orderId : String)
  | error (msg : String)
deriving DecidableEq, Repr

/-- The errors the booking service surfaces, by source error code:
`USER_NOT_FOUND`, `BOOKING_NOT_FOUND`, `BOOKING_ALREADY_CANCELLED`,
`NO_AMADEUS_ORDER`, the mongo duplicate-key rejection of the schema's
unique `pnr`/`bookingReference` constraints, rethrown Amadeus failures,
and the JavaScript `TypeError` crash paths. -/
inductive BookingError
  | userNotFound
  | bookingNotFound
  | bookingAlreadyCancelled
  | noAmadeusOrder
  | duplicateKey
  | amadeusError (msg : String)
  | typeError
deriving DecidableEq, Repr

deriving instance DecidableEq for Except

/-- A side effect issued by a booking operation, in program order:
identifier generation, a remote Amadeus call, or a store save attempt. -/
inductive Event
  | generateIds (pnr bookingReference : String)
  | amadeusConfirm
  | amadeusCancel (orderId : String)
  | save (booking : Booking)
deriving DecidableEq, Repr

/-- Is this event a store save attempt? -/
def Event.isSave : Event → Bool
  | .save _ => true
  | _ => false

/-- Is this event the remote confirm (order-creation) call? -/
def Event.isConfirm : Event → Bool
  | .amadeusConfirm => true
  | _ => false

/-- Is this event an identifier-generation step? -/
def Event.isGenerate : Event → Bool
  | .generateIds _ _ => true
  | _ => false

/-- The identifiers already held by existing reservations: the store
state against which the schema's unique constraints on `pnr` and
`bookingReference` are enforced. -/
structure BookingStore where
  pnrs : List String
  refs : List String
deriving DecidableEq, Repr

/-! ## Identifier generator (`pnrGenerator.ts`) -/

/-- `PNR_CHARACTERS`: the restricted alphabet, "excluding confusing
characters like 0, O, I, 1" per the source comment. -/
def PNR_CHARACTERS : List Char := "ABCDEFGHJKLMNPQRSTUVWXYZ23456789".toList

/-- `BOOKING_REF_CHARACTERS`: the full uppercase alphanumeric alphabet. -/
def BOOKING_REF_CHARACTERS : List Char := "ABCDEFGHIJKLMNOPQRSTUVWXYZ0123456789".toList

/-- JavaScript `s.slice(-2)`: the last two elements (or the whole list
when it is shorter). -/
def sliceLastTwo (l : List Char) : List Char := l.drop (l.length - 2)

/-- `Date.now().toString(36).slice(-2).toUpperCase()`: the timestamp-based
suffix `generatePNR` splices over its last two characters.
`Nat.toDigits 36` is JavaScript's base-36 rendering (digits then
lowercase letters), uppercased afterwards exactly as the source does. -/
def timestampSuffix (nowMs : Nat) : List Char :=
  (sliceLastTwo (Nat.toDigits 36 nowMs)).map Char.toUpper

/-- `generatePNR()`: draws 6 characters from `PNR_CHARACTERS` using the
given `crypto.randomInt(0, 32)` draws, then replaces the last 2
characters with the timestamp-based suffix. -/
def generatePNR (rand : Fin 6 → Fin 32) (nowMs : Nat) : String :=
  let pnr := (List.finRange 6).map fun i =>
    PNR_CHARACTERS.get ⟨(rand i).val, Nat.lt_of_lt_of_le (rand i).isLt (by decide)⟩
  ⟨pnr.take 4 ++ timestampSuffix nowMs⟩

/-- `generateBookingReference()`: 8 characters drawn from
`BOOKING_REF_CHARACTERS` using the given `crypto.randomInt(0, 36)`
draws. -/
def generateBookingReference (rand : Fin 8 → Fin 36) : String :=
  ⟨(List.finRange 8).map fun i =>
    BOOKING_REF_CHARACTERS.get ⟨(rand i).val, Nat.lt_of_lt_of_le (rand i).isLt (by decide)⟩⟩

/-- Is `c` an uppercase letter or a digit (the character class of the
`/^[A-Z0-9]{6}$/` test)? -/
def isUpperAlnum (c : Char) : Bool :=
  ('A' ≤ c && c ≤ 'Z') || ('0' ≤ c && c ≤ '9')

/-- `validatePNR(pnr)`: the regex test `/^[A-Z0-9]{6}$/`. -/
def validatePNR (pnr : String) : Bool :=
  pnr.length == 6 && pnr.data.all isUpperAlnum

/-- `isPNRValid(pnr)`: falsy or non-string input is invalid, then the
format check `validatePNR`. -/
def isPNRValid (pnr : String) : Bool :=
  if pnr = "" then false else validatePNR pnr

/-- The `format` argument of `formatPNRForDisplay`. -/
inductive PNRDisplayFormat
  | spaced
  | hyphenated
deriving DecidableEq, Repr

/-- The separator character each display format inserts. -/
def sepChar : PNRDisplayFormat → Char
  | .spaced => ' '
  | .hyphenated => '-'

/-- `formatPNRForDisplay(pnr, format)`: invalid input is returned
unchanged; a valid PNR becomes `pnr.slice(0,3) + sep + pnr.slice(3)`. -/
def formatPNRForDisplay (pnr : String) (format : PNRDisplayFormat) : String :=
  if !(isPNRValid pnr) then pnr
  else ⟨pnr.data.take 3 ++ [sepChar format] ++ pnr.data.drop 3⟩

/-! ## Requests -/

/-- One passenger of a creation request (the fields `createBooking`
reads). -/
structure PassengerInput where
  firstName : String
  lastName : String
  email : Option String
  phone : Option String
  specialRequests : Option (List String)
deriving DecidableEq, Repr

/-- `IBookingCreateRequest`, restricted to the fields `createBooking`
reads. -/
structure BookingCreateRequest where
  userId : String
  flightOffers : List FlightOffer
  passengers : List PassengerInput
  contactInfo : ContactInfo
  specialRequests : Option (List String)
  remarks : Option String
deriving DecidableEq, Repr

/-- One passenger entry of an update request. -/
structure PassengerUpdate where
  id : Option String
  firstName : Option String
  lastName : Option String
  email : Option String
  phone : Option String
  specialRequests : Option (List String)
  seatAssignment : Option String
deriving DecidableEq, Repr

/-- The address part of an update request (merged by `Object.assign`). -/
structure AddressUpdate where
  street : Option String
  city : Option String
  state : Option String
  postalCode : Option String
  country : Option String
deriving DecidableEq, Repr

/-- The contact-info part of an update request. -/
structure ContactInfoUpdate where
  email : Option String
  phone : Option String
  address : Option AddressUpdate
deriving DecidableEq, Repr

/-- `IBookingUpdateRequest`, restricted to the fields `updateBooking`
applies. -/
structure BookingUpdateRequest where
  status : Option BookingStatus
  passengers : Option (List PassengerUpdate)
  contactInfo : Option ContactInfoUpdate
  specialRequests : Option (List String)
  remarks : Option String
deriving DecidableEq, Repr

/-! ## Helpers for JavaScript truthiness -/

/-- JavaScript `x || dflt` for an optional string: the string when
present and non-empty, the default otherwise. -/
def jsOr (x : Option String) (dflt : String) : String :=
  match x with
  | some s => if s = "" then dflt else s
  | none => dflt

/-- JavaScript `if (x) cur = x` for an optional string field: overwrite
only when present and truthy (non-empty). -/
def jsSet (x : Option String) (cur : String) : String :=
  match x with
  | some s => if s = "" then cur else s
  | none => cur

/-! ## `BookingService.createBooking` -/

/-- Placeholder offer for the unreachable `flightOffers[0]` access of the
non-empty branch (the empty-offer crash is modelled separately as
`typeError`). -/
def defaultOffer : FlightOffer :=
  { id := "", price := { currency := "", base := 0, total := 0, fees := [] } }

/-- `BookingService.createBooking`, with its side effects in program
order.  The source control flow: validate the user, generate the PNR and
booking reference, build the Amadeus request (crashing on an empty
passenger list), attempt the remote order creation (any failure is caught
and the flow continues with no order id), construct the local booking
document (status `confirmed` exactly when an order id was obtained,
`pending` otherwise; crashing on an empty offer list), and finally save
it — the store rejecting a `pnr`/`bookingReference` collision with a
duplicate-key error that the service rethrows. -/
def createBooking (store : BookingStore) (userExists : Bool)
    (req : BookingCreateRequest)
    (pnrRand : Fin 6 → Fin 32) (pnrTime : Nat) (refRand : Fin 8 → Fin 36)
    (amadeus : AmadeusResult) (now : Nat) :
    List Event × Except BookingError Booking :=
  if userExists then
    let pnr := generatePNR pnrRand pnrTime
    let bookingReference := generateBookingReference refRand
    if req.passengers.isEmpty then
      ([Event.generateIds pnr bookingReference], Except.error BookingError.typeError)
    else
      let amadeusOrderId : Option String :=
        match amadeus with
        | AmadeusResult.ok oid => some oid
        | AmadeusResult.error _ => none
      if req.flightOffers.isEmpty then
        ([Event.generateIds pnr bookingReference, Event.amadeusConfirm],
         Except.error BookingError.typeError)
      else
        let booking : Booking :=
          { pnr := pnr
            bookingReference := bookingReference
            amadeusOrderId := amadeusOrderId
            status :=
              match amadeusOrderId with
              | some oid => if oid = "" then BookingStatus.pending else BookingStatus.confirmed
              | none => BookingStatus.pending
            statusHistory := []
            passengers := req.passengers.mapIdx fun i p =>
              { id := "passenger_" ++ toString (i + 1)
                firstName := p.firstName
                lastName := p.lastName
                contactEmail := jsOr p.email req.contactInfo.email
                contactPhone := jsOr p.phone req.contactInfo.phone
                specialRequests := p.specialRequests.getD []
                seatAssignment := none }
            contactInfo := req.contactInfo
            pricing :=
              { currency := (req.flightOffers.headD defaultOffer).price.currency
                basePrice := req.flightOffers.foldl (fun s o => s + o.price.base) 0
                taxes := req.flightOffers.foldl
                  (fun s o => s + o.price.fees.foldl (fun fs f => fs + f) 0) 0
                fees := []
                totalPrice := req.flightOffers.foldl (fun s o => s + o.price.total) 0
                breakdown := req.flightOffers.map fun o =>
                  { offerId := o.id
                    basePrice := o.price.base
                    taxes := o.price.fees.foldl (fun fs f => fs + f) 0
                    total := o.price.total } }
            specialRequests := req.specialRequests.getD []
            remarks := req.remarks
            bookedAt := now
            expiresAt := now + 24 * 60 * 60 * 1000
            cancelledAt := none
            cancellationReason := none
            updatedAt := now
            lastSyncedAt := none }
        let events := [Event.generateIds pnr bookingReference, Event.amadeusConfirm,
                       Event.save booking]
        if pnr ∈ store.pnrs ∨ bookingReference ∈ store.refs then
          (events, Except.error BookingError.duplicateKey)
        else
          (events, Except.ok booking)
  else ([], Except.error BookingError.userNotFound)

/-! ## `BookingService.updateBooking` -/

/-- Apply one passenger update's truthy fields to a passenger record. -/
def applyPassengerUpdate (u : PassengerUpdate) (p : Passenger) : Passenger :=
  { p with
    firstName := jsSet u.firstName p.firstName
    lastName := jsSet u.lastName p.lastName
    contactEmail := jsSet u.email p.contactEmail
    contactPhone := jsSet u.phone p.contactPhone
    specialRequests := u.specialRequests.getD p.specialRequests
    seatAssignment :=
      match u.seatAssignment with
      | some s => if s = "" then p.seatAssignment else some s
      | none => p.seatAssignment }

/-- `booking.passengers.find(p => p.id === u.id)` followed by in-place
mutation: update the first passenger with the matching id. -/
def updateFirstPassenger (ps : List Passenger) (pid : String) (u : PassengerUpdate) :
    List Passenger :=
  match ps with
  | [] => []
  | p :: rest =>
    if p.id = pid then applyPassengerUpdate u p :: rest
    else p :: updateFirstPassenger rest pid u

/-- `updateData.passengers.forEach(...)`: apply each passenger update in
order; an update without an id matches no passenger. -/
def applyPassengerUpdates (ps : List Passenger) (us : List PassengerUpdate) :
    List Passenger :=
  us.foldl (fun acc u =>
    match u.id with
    | some pid => updateFirstPassenger acc pid u
    | none => acc) ps

/-- `Object.assign(booking.contactInfo.address, update)`: overwrite the
provided keys. -/
def applyAddressUpdate (a : Address) (u : AddressUpdate) : Address :=
  { street := u.street.getD a.street
    city := u.city.getD a.city
    state := u.state.getD a.state
    postalCode := u.postalCode.getD a.postalCode
    country := u.country.getD a.country }

/-- Apply the contact-info part of an update request. -/
def applyContactUpdate (c : ContactInfo) (u : ContactInfoUpdate) : ContactInfo :=
  { email := jsSet u.email c.email
    phone := jsSet u.phone c.phone
    address :=
      match u.address with
      | some au => applyAddressUpdate c.address au
      | none => c.address }

/-- `BookingService.updateBooking`: find the booking, then apply every
provided part of the patch unconditionally — a status change (appending a
"Manual update" history entry), passenger edits, contact edits, special
requests, remarks — and save.  No status precondition or departure-cutoff
check is performed. -/
def updateBooking (found : Option Booking) (upd : BookingUpdateRequest) (now : Nat) :
    Except BookingError Booking :=
  match found with
  | none => Except.error BookingError.bookingNotFound
  | some b =>
    let b :=
      match upd.status with
      | some s =>
        { b with status := s
                 statusHistory :=
                   b.statusHistory ++
                     [({ status := s, changedAt := now,
                         reason := "Manual update" } : StatusHistoryEntry)] }
      | none => b
    let b :=
      match upd.passengers with
      | some us => { b with passengers := applyPassengerUpdates b.passengers us }
      | none => b
    let b :=
      match upd.contactInfo with
      | some cu => { b with contactInfo := applyContactUpdate b.contactInfo cu }
      | none => b
    let b :=
      match upd.specialRequests with
      | some sr => { b with specialRequests := sr }
      | none => b
    let b :=
      match upd.remarks with
      | some r => if r = "" then b else { b with remarks := some r }
      | none => b
    Except.ok { b with updatedAt := now }

/-! ## `BookingService.cancelBooking` -/

/-- `BookingService.cancelBooking`: find the booking; reject only when it
is already `cancelled`; otherwise attempt the remote cancellation when an
order id is present (its outcome — including failure — is caught and
ignored), then transition to `cancelled` locally, append the history
entry carrying the supplied reason, stamp `cancelledAt` and
`cancellationReason`, and save. -/
def cancelBooking (found : Option Booking) (reason : String)
    (_remote : AmadeusResult) (now : Nat) :
    List Event × Except BookingError Booking :=
  match found with
  | none => ([], Except.error BookingError.bookingNotFound)
  | some b =>
    if b.status = BookingStatus.cancelled then
      ([], Except.error BookingError.bookingAlreadyCancelled)
    else
      let events :=
        match b.amadeusOrderId with
        | some oid => if oid = "" then [] else [Event.amadeusCancel oid]
        | none => []
      let cancelled :=
        { b with status := BookingStatus.cancelled
                 statusHistory :=
                   b.statusHistory ++
                     [({ status := BookingStatus.cancelled, changedAt := now,
                         reason := reason } : StatusHistoryEntry)]
                 cancelledAt := some now
                 cancellationReason := some reason
                 updatedAt := now }
      (events ++ [Event.save cancelled], Except.ok cancelled)

/-! ## `BookingService.syncWithAmadeus` -/

/-- `BookingService.syncWithAmadeus`: find the booking; fail with
`NO_AMADEUS_ORDER` when no (truthy) order id is stored; fetch the remote
order, letting a thrown failure propagate; on success only stamp
`lastSyncedAt` and save — neither `status` nor `amadeusOrderId` is
modified. -/
def syncWithAmadeus (found : Option Booking) (fetched : AmadeusResult) (now : Nat) :
    Except BookingError Booking :=
  match found with
  | none => Except.error BookingError.bookingNotFound
  | some b =>
    match b.amadeusOrderId with
    | none => Except.error BookingError.noAmadeusOrder
    | some oid =>
      if oid = "" then Except.error BookingError.noAmadeusOrder
      else
        match fetched with
        | AmadeusResult.error msg => Except.error (BookingError.amadeusError msg)
        | AmadeusResult.ok _ => Except.ok { b with lastSyncedAt := some now }

/-! ## The schema's `canBeModified` (Booking model) -/

/-- `bookingSchema.methods.canBeModified`: `confirmed`, strictly more
than 2 hours until the first departure, and a changeable fare.  Times are
milliseconds; the source's `hoursUntilDeparture > 2` on exact rationals. -/
def canBeModified (status : BookingStatus) (nowMs departureMs : ℚ)
    (changeable : Bool) : Bool :=
  status == BookingStatus.confirmed
    && decide ((departureMs - nowMs) / (1000 * 60 * 60) > 2)
    && changeable

/-! ## Concrete sample data used by the closed theorems -/

/-- A sample contact record. -/
def sampleContact : ContactInfo :=
  { email := "alice@example.com"
    phone := "5551234"
    address := { street := "1 Main St", city := "Springfield", state := "IL",
                 postalCode := "62701", country := "US" } }

/-- The §8 scenario offer: a round-trip offer priced 250.00 base plus a
49.99 fee, total 299.99 USD. -/
def sampleOffer : FlightOffer :=
  { id := "offer-1"
    price := { currency := "USD", base := 250, total := 29999/100, fees := [4999/100] } }

/-- Two passengers for the §8 scenario. -/
def samplePassengers : List PassengerInput :=
  [{ firstName := "Alice", lastName := "Smith", email := none, phone := none,
     specialRequests := none },
   { firstName := "Bob", lastName := "Smith", email := none, phone := none,
     specialRequests := none }]

/-- The §8 scenario creation request. -/
def sampleReq : BookingCreateRequest :=
  { userId := "user-1"
    flightOffers := [sampleOffer]
    passengers := samplePassengers
    contactInfo := sampleContact
    specialRequests := none
    remarks := none }

/-- Fixed random draws for `generatePNR` (always the first character). -/
def sampleRand : Fin 6 → Fin 32 := fun _ => ⟨0, by omega⟩

/-- Fixed random draws for `generateBookingReference`. -/
def sampleRefRand : Fin 8 → Fin 36 := fun _ => ⟨0, by omega⟩

/-- An empty reservation store. -/
def emptyStore : BookingStore := { pnrs := [], refs := [] }

/-- A store already holding the very PNR `generatePNR` is about to
produce for `sampleRand` at timestamp 1297. -/
def collidingStore : BookingStore :=
  { pnrs := [generatePNR sampleRand 1297], refs := [] }

/-- Zero pricing for hand-built bookings. -/
def zeroPricing : Pricing :=
  { currency := "USD", basePrice := 0, taxes := 0, fees := [], totalPrice := 0,
    breakdown := [] }

/-- A reservation in the terminal state `expired`. -/
def expiredBooking : Booking :=
  { pnr := "EXPPNR"
    bookingReference := "REF00001"
    amadeusOrderId := none
    status := BookingStatus.expired
    statusHistory := [⟨BookingStatus.pending, 0, "created"⟩,
                      ⟨BookingStatus.expired, 10, "hold expired"⟩]
    passengers := []
    contactInfo := sampleContact
    pricing := zeroPricing
    specialRequests := []
    remarks := none
    bookedAt := 0
    expiresAt := 10
    cancelledAt := none
    cancellationReason := none
    updatedAt := 10
    lastSyncedAt := none }

/-- A `confirmed` reservation holding a remote order id. -/
def confirmedBooking : Booking :=
  { pnr := "CNFPNR"
    bookingReference := "REF00002"
    amadeusOrderId := some "AB123"
    status := BookingStatus.confirmed
    statusHistory := [⟨BookingStatus.confirmed, 5, "remote order created"⟩]
    passengers := []
    contactInfo := sampleContact
    pricing := zeroPricing
    specialRequests := []
    remarks := none
    bookedAt := 5
    expiresAt := 100
    cancelledAt := none
    cancellationReason := none
    updatedAt := 5
    lastSyncedAt := none }

/-- A patch changing only the contact email. -/
def samplePatch : BookingUpdateRequest :=
  { status := none
    passengers := none
    contactInfo := some { email := some "new@example.com", phone := none, address := none }
    specialRequests := none
    remarks := none }

/-- A patch changing only the status (to `completed`). -/
def statusPatch : BookingUpdateRequest :=
  { status := some BookingStatus.completed
    passengers := none
    contactInfo := none
    specialRequests := none
    remarks := none }

/-- The event trace of the §8 scenario Create whose remote confirm call
fails without a definitive answer. -/
def indeterminateTrace : List Event :=
  (createBooking emptyStore true sampleReq sampleRand 1297 sampleRefRand
    (AmadeusResult.error "timeout") 1000).1

/-- Resync run directly after a Create whose remote confirm failed: the
composition the Indeterminate-handling property talks about. -/
def resyncAfterIndeterminateCreate : Except BookingError Booking :=
  match (createBooking emptyStore true sampleReq sampleRand 1297 sampleRefRand
    (AmadeusResult.error "timeout") 1000).2 with
  | Except.ok b => syncWithAmadeus (some b) (AmadeusResult.ok "AB123") 2000
  | Except.error e => Except.error e

end Skybooker

namespace Skybooker

/-! ## Helper lemmas -/

/-- Appending a one-element list makes that element the last entry. -/
theorem getLast_append_one {α : Type} (l : List α) (a : α) :
    (l ++ [a]).getLast? = some a :=
  List.getLast?_concat l

/-- Rebuilding a string from its character data is the identity. -/
theorem string_mk_data (s : String) : String.mk s.data = s := by
  cases s
  rfl

/-! ## Claims about the identifier generator and display formatter -/

/-- Claim C10: `formatPNRForDisplay` returns any invalid input unchanged,
and on a valid PNR inserts exactly one separator (a space or hyphen)
after the third character, such that deleting that separator recovers the
original code exactly. -/
theorem C10_theorem (pnr : String) (fmt : PNRDisplayFormat) :
    (isPNRValid pnr = false → formatPNRForDisplay pnr fmt = pnr) ∧
    (isPNRValid pnr = true →
      (sepChar fmt = ' ' ∨ sepChar fmt = '-') ∧
      formatPNRForDisplay pnr fmt =
        String.mk (pnr.data.take 3 ++ [sepChar fmt] ++ pnr.data.drop 3) ∧
      String.mk ((formatPNRForDisplay pnr fmt).data.take 3 ++
                 (formatPNRForDisplay pnr fmt).data.drop 4) = pnr) := by
  constructor
  · intro h
    simp [formatPNRForDisplay, h]
  · intro h
    have h6 : pnr.data.length = 6 := by
      have hv : validatePNR pnr = true := by
        unfold isPNRValid at h
        split at h
        · exact absurd h (by simp)
        · exact h
      simp only [validatePNR, Bool.and_eq_true, beq_iff_eq] at hv
      exact hv.1
    have hfmt : formatPNRForDisplay pnr fmt =
        String.mk (pnr.data.take 3 ++ [sepChar fmt] ++ pnr.data.drop 3) := by
      unfold formatPNRForDisplay
      rw [h]
      cases fmt <;> rfl
    refine ⟨by cases fmt <;> simp [sepChar], hfmt, ?_⟩
    have ht : (pnr.data.take 3).length = 3 := by
      rw [List.length_take]
      omega
    have h1 : (pnr.data.take 3 ++ [sepChar fmt] ++ pnr.data.drop 3).take 3 =
        pnr.data.take 3 := by
      rw [List.append_assoc]
      exact List.take_left' ht
    have h2 : (pnr.data.take 3 ++ [sepChar fmt] ++ pnr.data.drop 3).drop 4 =
        pnr.data.drop 3 := by
      apply List.drop_left'
      simp [ht]
    rw [hfmt]
    calc String.mk ((String.mk (pnr.data.take 3 ++ [sepChar fmt] ++ pnr.data.drop 3)).data.take 3 ++
            (String.mk (pnr.data.take 3 ++ [sepChar fmt] ++ pnr.data.drop 3)).data.drop 4)
        = String.mk ((pnr.data.take 3 ++ [sepChar fmt] ++ pnr.data.drop 3).take 3 ++
            (pnr.data.take 3 ++ [sepChar fmt] ++ pnr.data.drop 3).drop 4) := rfl
      _ = String.mk (pnr.data.take 3 ++ pnr.data.drop 3) := by rw [h1, h2]
      _ = String.mk pnr.data := by rw [List.take_append_drop]
      _ = pnr := string_mk_data pnr

/-- Witness for C10: a concrete invalid input is returned unchanged, and
the concrete valid PNR "ABC123" is displayed as "ABC 123". -/
theorem C10_witness :
    formatPNRForDisplay "ab" PNRDisplayFormat.spaced = "ab" ∧
    formatPNRForDisplay "ABC123" PNRDisplayFormat.spaced = "ABC 123" := by
  constructor
  · exact (C10_theorem ("ab") PNRDisplayFormat.spaced).1 (by decide)
  · exact ((C10_theorem ("ABC123") PNRDisplayFormat.spaced).2 (by decide)).2.1.trans
      (by decide)

/-- Claim C8 (code bug): `generatePNR` promises 6 characters drawn from
the restricted alphabet excluding 0, O, I and 1, but the timestamp-based
suffix it splices over the last two characters ranges over all base-36
digits.  At draws all 0 and timestamp 1297 the generated code is
"AAAA01", whose characters '0' and '1' are outside `PNR_CHARACTERS`. -/
theorem C8_theorem :
    generatePNR sampleRand 1297 = "AAAA01" ∧
    (generatePNR sampleRand 1297).data.length = 6 ∧
    '0' ∈ (generatePNR sampleRand 1297).data ∧
    '1' ∈ (generatePNR sampleRand 1297).data ∧
    '0' ∉ PNR_CHARACTERS ∧
    '1' ∉ PNR_CHARACTERS := by
  refine ⟨by decide, by decide, by decide, by decide, by decide, by decide⟩

/-! ## Claims about cancellation -/

/-- Claim C2 (amended): `cancelBooking` rejects with the
already-cancelled error exactly when the current status is `cancelled`
(leaving the store untouched — no event is issued); any other status,
including the terminal `expired`, `refunded` and `completed`, is
cancelled anew with one appended history entry.  In particular a second
cancel of the same reservation yields the already-cancelled error and
the two calls append exactly one history entry in total. -/
theorem C2_theorem (b : Booking) (reason : String) (r1 r2 : AmadeusResult) (t1 t2 : Nat) :
    (b.status = BookingStatus.cancelled →
      (cancelBooking (some b) reason r1 t1).2 =
        Except.error BookingError.bookingAlreadyCancelled ∧
      (cancelBooking (some b) reason r1 t1).1 = []) ∧
    (b.status ≠ BookingStatus.cancelled →
      ∃ b2, (cancelBooking (some b) reason r1 t1).2 = Except.ok b2 ∧
        b2.status = BookingStatus.cancelled ∧
        b2.statusHistory = b.statusHistory ++
          [{ status := BookingStatus.cancelled, changedAt := t1, reason := reason }] ∧
        (cancelBooking (some b2) reason r2 t2).2 =
          Except.error BookingError.bookingAlreadyCancelled) := by
  constructor
  · intro h
    constructor <;> simp [cancelBooking, h]
  · intro h
    refine ⟨{ b with
                status := BookingStatus.cancelled
                statusHistory := b.statusHistory ++
                  [{ status := BookingStatus.cancelled, changedAt := t1, reason := reason }]
                cancelledAt := some t1
                cancellationReason := some reason
                updatedAt := t1 },
            ?_, rfl, rfl, ?_⟩
    · simp [cancelBooking, h]
    · simp [cancelBooking]

/-- Witness for C2: cancelling the concrete confirmed reservation
succeeds, and cancelling the result again is rejected as already
cancelled. -/
theorem C2_witness :
    ∃ b2, (cancelBooking (some confirmedBooking) "w" (AmadeusResult.ok "x") 1).2 =
        Except.ok b2 ∧
      b2.status = BookingStatus.cancelled ∧
      b2.statusHistory = confirmedBooking.statusHistory ++
        [{ status := BookingStatus.cancelled, changedAt := 1, reason := "w" }] ∧
      (cancelBooking (some b2) "w" (AmadeusResult.ok "x") 2).2 =
        Except.error BookingError.bookingAlreadyCancelled :=
  (C2_theorem confirmedBooking "w" (AmadeusResult.ok "x") (AmadeusResult.ok "x") 1 2).2
    (by decide)

/-- Counterexample for C2: the reservation in the terminal state
`expired` is not rejected — `cancelBooking` re-cancels it, changing its
status and appending a new history entry, instead of returning the
already-terminal error and leaving it unchanged. -/
theorem C2_counterexample :
    (cancelBooking (some expiredBooking) "customer request" (AmadeusResult.ok "ignored") 20).2 ≠
      Except.error BookingError.bookingAlreadyCancelled ∧
    ((cancelBooking (some expiredBooking) "customer request"
        (AmadeusResult.ok "ignored") 20).2.toOption.any
      fun b2 => b2.status == BookingStatus.cancelled) = true ∧
    ((cancelBooking (some expiredBooking) "customer request"
        (AmadeusResult.ok "ignored") 20).2.toOption.any
      fun b2 => b2.statusHistory.length == expiredBooking.statusHistory.length + 1) = true := by
  refine ⟨by decide, by decide, by decide⟩

/-- Claim C7: cancelling a `confirmed` reservation always completes the
local transition to `cancelled` — appending one history entry carrying
the supplied reason — whatever the remote cancellation outcome (the
source catches and ignores any failure), and `amadeusOrderId` is left
unchanged for later resync-driven remote cancellation. -/
theorem C7_theorem (b : Booking) (reason : String) (remote : AmadeusResult) (now : Nat)
    (h : b.status = BookingStatus.confirmed) :
    ∃ b2, (cancelBooking (some b) reason remote now).2 = Except.ok b2 ∧
      b2.status = BookingStatus.cancelled ∧
      b2.statusHistory = b.statusHistory ++
        [{ status := BookingStatus.cancelled, changedAt := now, reason := reason }] ∧
      b2.amadeusOrderId = b.amadeusOrderId := by
  have hne : b.status ≠ BookingStatus.cancelled := by
    rw [h]
    decide
  refine ⟨{ b with
              status := BookingStatus.cancelled
              statusHistory := b.statusHistory ++
                [{ status := BookingStatus.cancelled, changedAt := now, reason := reason }]
              cancelledAt := some now
              cancellationReason := some reason
              updatedAt := now },
          ?_, rfl, rfl, rfl⟩
  simp [cancelBooking, hne]

/-- Witness for C7: the concrete confirmed reservation whose remote
cancel call times out is still cancelled locally, keeping its remote
order id. -/
theorem C7_witness :
    ∃ b2, (cancelBooking (some confirmedBooking) "plans changed"
        (AmadeusResult.error "timeout") 50).2 = Except.ok b2 ∧
      b2.status = BookingStatus.cancelled ∧
      b2.statusHistory = confirmedBooking.statusHistory ++
        [{ status := BookingStatus.cancelled, changedAt := 50, reason := "plans changed" }] ∧
      b2.amadeusOrderId = confirmedBooking.amadeusOrderId :=
  C7_theorem confirmedBooking "plans changed" (AmadeusResult.error "timeout") 50 (by decide)

end Skybooker

namespace Skybooker

/-! ## Helper lemmas about the orchestrator operations -/

/-- Shape of a successful `createBooking`: the saved booking carries the
generated identifiers, an empty status history, and the status and order
id determined solely by the remote outcome; success implies the
identifiers do not collide with the store. -/
theorem createBooking_ok (store : BookingStore)
    (req : BookingCreateRequest) (rand : Fin 6 → Fin 32) (t : Nat)
    (refRand : Fin 8 → Fin 36) (amadeus : AmadeusResult) (now : Nat) (b : Booking)
    (h : (createBooking store true req rand t refRand amadeus now).2 = Except.ok b) :
    b.statusHistory = [] ∧
    b.pnr = generatePNR rand t ∧
    b.bookingReference = generateBookingReference refRand ∧
    b.pnr ∉ store.pnrs ∧
    b.bookingReference ∉ store.refs ∧
    b.amadeusOrderId = (match amadeus with
      | AmadeusResult.ok oid => some oid
      | AmadeusResult.error _ => none) ∧
    b.status = (match amadeus with
      | AmadeusResult.ok oid =>
        if oid = "" then BookingStatus.pending else BookingStatus.confirmed
      | AmadeusResult.error _ => BookingStatus.pending) := by
  simp only [createBooking, if_true] at h
  by_cases hP : req.passengers.isEmpty
  · simp [hP] at h
  · simp only [hP, if_false, Bool.false_eq_true] at h
    by_cases hO : req.flightOffers.isEmpty
    · simp [hO] at h
    · simp only [hO, if_false, Bool.false_eq_true] at h
      by_cases hdup : generatePNR rand t ∈ store.pnrs ∨
          generateBookingReference refRand ∈ store.refs
      · simp [hdup] at h
      · simp only [hdup, if_false] at h
        injection h with h
        subst h
        push_neg at hdup
        refine ⟨rfl, rfl, rfl, hdup.1, hdup.2, ?_, ?_⟩
        · cases amadeus <;> rfl
        · cases amadeus <;> rfl

/-- `createBooking` generates the identifier pair exactly once,
whatever the input. -/
theorem createBooking_one_generate (store : BookingStore)
    (req : BookingCreateRequest) (rand : Fin 6 → Fin 32) (t : Nat)
    (refRand : Fin 8 → Fin 36) (amadeus : AmadeusResult) (now : Nat) :
    (createBooking store true req rand t refRand amadeus now).1.countP
      Event.isGenerate = 1 := by
  simp only [createBooking, if_true]
  by_cases hP : req.passengers.isEmpty
  · simp [hP, List.countP_cons, Event.isGenerate]
  · simp only [hP, if_false, Bool.false_eq_true]
    by_cases hO : req.flightOffers.isEmpty
    · simp [hO, List.countP_cons, Event.isGenerate]
    · simp only [hO, if_false, Bool.false_eq_true]
      by_cases hdup : generatePNR rand t ∈ store.pnrs ∨
          generateBookingReference refRand ∈ store.refs
      · simp [hdup, List.countP_cons, Event.isGenerate]
      · simp [hdup, List.countP_cons, Event.isGenerate]

/-- A cancel of a not-yet-cancelled booking produces exactly the locally
cancelled record. -/
theorem cancelBooking_ok (b : Booking) (reason : String) (remote : AmadeusResult)
    (now : Nat) (h : b.status ≠ BookingStatus.cancelled) :
    (cancelBooking (some b) reason remote now).2 = Except.ok
      { b with
          status := BookingStatus.cancelled
          statusHistory := b.statusHistory ++
            [{ status := BookingStatus.cancelled, changedAt := now, reason := reason }]
          cancelledAt := some now
          cancellationReason := some reason
          updatedAt := now } := by
  simp [cancelBooking, h]

/-- `updateBooking` always succeeds on a found booking; its status,
history and contact info are determined by the corresponding parts of
the patch alone. -/
theorem updateBooking_ok (b : Booking) (upd : BookingUpdateRequest) (now : Nat) :
    ∃ b2, updateBooking (some b) upd now = Except.ok b2 ∧
      b2.status = (match upd.status with | some s => s | none => b.status) ∧
      b2.statusHistory = (match upd.status with
        | some s => b.statusHistory ++
            [{ status := s, changedAt := now, reason := "Manual update" }]
        | none => b.statusHistory) ∧
      b2.contactInfo = (match upd.contactInfo with
        | some cu => applyContactUpdate b.contactInfo cu
        | none => b.contactInfo) := by
  rcases upd with ⟨st, ps, ci, sr, rm⟩
  cases st <;> cases ps <;> cases ci <;> cases sr <;> cases rm <;>
    simp only [updateBooking] <;>
    first
      | exact ⟨_, rfl, rfl, rfl, rfl⟩
      | (rename_i r
         by_cases hr : r = "" <;> simp only [hr, if_pos, if_neg] <;>
           exact ⟨_, rfl, rfl, rfl, rfl⟩)

/-! ## Claims about creation, resync, update -/

/-- Claim C1 (amended): every Create that reaches the booking
construction issues its side effects in the order identifier generation,
then the remote confirm attempt, then exactly one local save — i.e. the
remote confirm call strictly precedes the local persist, the reverse of
the claimed save-then-call ordering. -/
theorem C1_theorem (store : BookingStore) (req : BookingCreateRequest)
    (rand : Fin 6 → Fin 32) (t : Nat) (refRand : Fin 8 → Fin 36)
    (amadeus : AmadeusResult) (now : Nat)
    (hp : req.passengers ≠ []) (ho : req.flightOffers ≠ []) :
    ∃ b, (createBooking store true req rand t refRand amadeus now).1 =
      [Event.generateIds (generatePNR rand t) (generateBookingReference refRand),
       Event.amadeusConfirm, Event.save b] := by
  have hP : req.passengers.isEmpty = false := by
    cases hc : req.passengers with
    | nil => exact absurd hc hp
    | cons a l => rfl
  have hO : req.flightOffers.isEmpty = false := by
    cases hc : req.flightOffers with
    | nil => exact absurd hc ho
    | cons a l => rfl
  simp only [createBooking, if_true, hP, hO, if_false, Bool.false_eq_true]
  by_cases hdup : generatePNR rand t ∈ store.pnrs ∨
      generateBookingReference refRand ∈ store.refs
  · simp only [hdup, if_true]
    exact ⟨_, rfl⟩
  · simp only [hdup, if_false]
    exact ⟨_, rfl⟩

/-- Witness for C1: the §8 scenario Create produces the trace
generate–confirm–save. -/
theorem C1_witness :
    ∃ b, (createBooking emptyStore true sampleReq sampleRand 1297 sampleRefRand
        (AmadeusResult.ok "AB123") 1000).1 =
      [Event.generateIds (generatePNR sampleRand 1297) (generateBookingReference sampleRefRand),
       Event.amadeusConfirm, Event.save b] :=
  C1_theorem emptyStore sampleReq sampleRand 1297 sampleRefRand
    (AmadeusResult.ok "AB123") 1000 (by decide) (by decide)

/-- Counterexample for C1: in the concrete Create whose remote confirm
fails (so the saved record is the claimed `pending` one), it is not the
case that every local save precedes every remote confirm call — the save
occurs at index 2, after the confirm call at index 1. -/
theorem C1_counterexample :
    ¬ (∀ i j : Nat, (indeterminateTrace[i]?.any Event.isSave) = true →
        (indeterminateTrace[j]?.any Event.isConfirm) = true → i < j) := by
  intro hcl
  have h21 := hcl 2 1 (by decide) (by decide)
  omega

/-- Claim C3 (amended): a Create whose remote confirm call fails returns
a non-error reservation with status `pending` and no remote order id;
but a subsequent Resync of any reservation without a remote order id
fails with the `NO_AMADEUS_ORDER` error, and even a successful Resync
never changes `status` or `amadeusOrderId` — it only stamps
`lastSyncedAt`. -/
theorem C3_theorem :
    (∀ store req rand t refRand msg now b,
      (createBooking store true req rand t refRand (AmadeusResult.error msg) now).2 =
          Except.ok b →
        b.status = BookingStatus.pending ∧ b.amadeusOrderId = none) ∧
    (∀ b fetched now, b.amadeusOrderId = none →
      syncWithAmadeus (some b) fetched now = Except.error BookingError.noAmadeusOrder) ∧
    (∀ b fetched now b2, syncWithAmadeus (some b) fetched now = Except.ok b2 →
      b2.status = b.status ∧ b2.amadeusOrderId = b.amadeusOrderId) := by
  refine ⟨?_, ?_, ?_⟩
  · intro store req rand t refRand msg now b h
    have hsh := createBooking_ok store req rand t refRand (AmadeusResult.error msg) now b h
    exact ⟨hsh.2.2.2.2.2.2, hsh.2.2.2.2.2.1⟩
  · intro b fetched now h
    simp [syncWithAmadeus, h]
  · intro b fetched now b2 h
    simp only [syncWithAmadeus] at h
    split at h
    · simp at h
    · split at h
      · simp at h
      · split at h
        · simp at h
        · injection h with h
          subst h
          exact ⟨rfl, rfl⟩

/-- Witness for C3: the concrete failed-confirm Create yields a pending
reservation without an order id; Resync rejects the order-id-less
reservation; Resync of the confirmed reservation preserves its status
and order id. -/
theorem C3_witness :
    (∃ b, (createBooking emptyStore true sampleReq sampleRand 1297 sampleRefRand
        (AmadeusResult.error "timeout") 1000).2 = Except.ok b ∧
      b.status = BookingStatus.pending ∧ b.amadeusOrderId = none) ∧
    syncWithAmadeus (some expiredBooking) (AmadeusResult.ok "AB123") 7 =
      Except.error BookingError.noAmadeusOrder ∧
    (∃ b2, syncWithAmadeus (some confirmedBooking) (AmadeusResult.ok "AB123") 7 =
        Except.ok b2 ∧
      b2.status = confirmedBooking.status ∧
      b2.amadeusOrderId = confirmedBooking.amadeusOrderId) := by
  refine ⟨⟨_, rfl, C3_theorem.1 emptyStore sampleReq sampleRand 1297 sampleRefRand
            "timeout" 1000 _ rfl⟩,
          C3_theorem.2.1 expiredBooking (AmadeusResult.ok "AB123") 7 (by decide),
          ⟨_, rfl, C3_theorem.2.2 confirmedBooking (AmadeusResult.ok "AB123") 7 _ rfl⟩⟩

/-- Counterexample for C3: resyncing the reservation produced by the
failed-confirm Create does not transition it to `confirmed` — it fails
with `NO_AMADEUS_ORDER`. -/
theorem C3_counterexample :
    resyncAfterIndeterminateCreate = Except.error BookingError.noAmadeusOrder ∧
    (resyncAfterIndeterminateCreate.toOption.any fun b =>
      b.status == BookingStatus.confirmed) = false := by
  refine ⟨by decide, by decide⟩

/-- Claim C4 (amended): after an Update carrying a status change and
after a Cancel, `statusHistory` is non-empty and its last entry's status
equals the current status; after a successful Create, however,
`statusHistory` is empty — no creation entry is recorded. -/
theorem C4_theorem :
    (∀ store req rand t refRand amadeus now b,
      (createBooking store true req rand t refRand amadeus now).2 = Except.ok b →
        b.statusHistory = []) ∧
    (∀ (b : Booking) upd now s b2, upd.status = some s →
      updateBooking (some b) upd now = Except.ok b2 →
        b2.statusHistory ≠ [] ∧
        b2.statusHistory.getLast?.map StatusHistoryEntry.status = some b2.status) ∧
    (∀ (b : Booking) reason remote now b2, b.status ≠ BookingStatus.cancelled →
      (cancelBooking (some b) reason remote now).2 = Except.ok b2 →
        b2.statusHistory ≠ [] ∧
        b2.statusHistory.getLast?.map StatusHistoryEntry.status = some b2.status) := by
  refine ⟨?_, ?_, ?_⟩
  · intro store req rand t refRand amadeus now b h
    exact (createBooking_ok store req rand t refRand amadeus now b h).1
  · intro b upd now s b2 hs h
    obtain ⟨b3, h1, h2, h3, _⟩ := updateBooking_ok b upd now
    rw [h1] at h
    injection h with h
    subst h
    rw [hs] at h2 h3
    simp only at h2 h3
    rw [h2, h3]
    constructor
    · simp
    · rw [getLast_append_one]
      rfl
  · intro b reason remote now b2 hne h
    rw [cancelBooking_ok b reason remote now hne] at h
    injection h with h
    subst h
    constructor
    · simp
    · rw [getLast_append_one]
      rfl

/-- Witness for C4: the concrete Create leaves an empty history; the
concrete status-changing Update and the concrete Cancel leave a
non-empty history whose last entry matches the current status. -/
theorem C4_witness :
    (∃ b, (createBooking emptyStore true sampleReq sampleRand 1297 sampleRefRand
        (AmadeusResult.ok "AB123") 1000).2 = Except.ok b ∧ b.statusHistory = []) ∧
    (∃ b2, updateBooking (some confirmedBooking) statusPatch 60 = Except.ok b2 ∧
      b2.statusHistory ≠ [] ∧
      b2.statusHistory.getLast?.map StatusHistoryEntry.status = some b2.status) ∧
    (∃ b2, (cancelBooking (some confirmedBooking) "w2" (AmadeusResult.ok "x") 61).2 =
        Except.ok b2 ∧
      b2.statusHistory ≠ [] ∧
      b2.statusHistory.getLast?.map StatusHistoryEntry.status = some b2.status) := by
  refine ⟨⟨_, rfl, C4_theorem.1 emptyStore sampleReq sampleRand 1297 sampleRefRand
            (AmadeusResult.ok "AB123") 1000 _ rfl⟩,
          ⟨_, rfl, C4_theorem.2.1 confirmedBooking statusPatch 60
            BookingStatus.completed _ rfl rfl⟩,
          ⟨_, rfl, C4_theorem.2.2 confirmedBooking "w2" (AmadeusResult.ok "x") 61 _
            (by decide) rfl⟩⟩

/-- Counterexample for C4: the concrete Create completes successfully,
yet the resulting reservation's `statusHistory` is empty — its last
entry cannot equal the current status. -/
theorem C4_counterexample :
    (createBooking emptyStore true sampleReq sampleRand 1297 sampleRefRand
      (AmadeusResult.ok "AB123") 1000).2.toOption.isSome = true ∧
    ((createBooking emptyStore true sampleReq sampleRand 1297 sampleRefRand
      (AmadeusResult.ok "AB123") 1000).2.toOption.any fun b =>
        !b.statusHistory.isEmpty) = false := by
  refine ⟨by decide, by decide⟩

/-- Claim C5 (amended): the identifier pair is generated exactly once
per Create — no uniqueness pre-check and no retry takes place — and a
reservation is persisted only when its identifiers are absent from the
store, a collision instead surfacing the store's duplicate-key conflict
to the caller. -/
theorem C5_theorem (store : BookingStore) (req : BookingCreateRequest)
    (rand : Fin 6 → Fin 32) (t : Nat) (refRand : Fin 8 → Fin 36)
    (amadeus : AmadeusResult) (now : Nat) :
    (createBooking store true req rand t refRand amadeus now).1.countP
      Event.isGenerate = 1 ∧
    (∀ b, (createBooking store true req rand t refRand amadeus now).2 = Except.ok b →
      b.pnr ∉ store.pnrs ∧ b.bookingReference ∉ store.refs) ∧
    ((generatePNR rand t ∈ store.pnrs ∨ generateBookingReference refRand ∈ store.refs) →
      ∀ b, (createBooking store true req rand t refRand amadeus now).2 ≠ Except.ok b) := by
  refine ⟨createBooking_one_generate store req rand t refRand amadeus now, ?_, ?_⟩
  · intro b h
    have hsh := createBooking_ok store req rand t refRand amadeus now b h
    exact ⟨hsh.2.2.2.1, hsh.2.2.2.2.1⟩
  · intro hdup b h
    have hsh := createBooking_ok store req rand t refRand amadeus now b h
    rcases hdup with hd | hd
    · exact hsh.2.2.2.1 (hsh.2.1.symm ▸ hd)
    · exact hsh.2.2.2.2.1 (hsh.2.2.1.symm ▸ hd)

/-- Witness for C5: the concrete Create against the empty store
generates identifiers once and persists a booking whose identifiers are
not in the store. -/
theorem C5_witness :
    (createBooking emptyStore true sampleReq sampleRand 1297 sampleRefRand
      (AmadeusResult.ok "AB123") 1000).1.countP Event.isGenerate = 1 ∧
    ∃ b, (createBooking emptyStore true sampleReq sampleRand 1297 sampleRefRand
        (AmadeusResult.ok "AB123") 1000).2 = Except.ok b ∧
      b.pnr ∉ emptyStore.pnrs ∧ b.bookingReference ∉ emptyStore.refs := by
  have h := C5_theorem emptyStore sampleReq sampleRand 1297 sampleRefRand
    (AmadeusResult.ok "AB123") 1000
  exact ⟨h.1, ⟨_, rfl, h.2.1 _ rfl⟩⟩

/-- Counterexample for C5: when the freshly generated PNR collides with
the store, Create does not retry generation — the trace still holds
exactly one generation event (not the two or more a retry would
require), and the result is the store's duplicate-key error rather than
a generation-exhausted conflict after bounded retries. -/
theorem C5_counterexample :
    (createBooking collidingStore true sampleReq sampleRand 1297 sampleRefRand
      (AmadeusResult.ok "AB123") 1000).2 = Except.error BookingError.duplicateKey ∧
    (createBooking collidingStore true sampleReq sampleRand 1297 sampleRefRand
      (AmadeusResult.ok "AB123") 1000).1.countP Event.isGenerate = 1 ∧
    ¬ 2 ≤ (createBooking collidingStore true sampleReq sampleRand 1297 sampleRefRand
      (AmadeusResult.ok "AB123") 1000).1.countP Event.isGenerate := by
  refine ⟨by decide, by decide, by decide⟩

/-- Claim C6 (amended): the §8 scenario Create — two passengers, a
round-trip offer totalling 299.99 USD, remote confirm answering with
order id "AB123" — yields a reservation with status `confirmed`, total
299.99, remote order id "AB123", and an empty `statusHistory` (not the
claimed two-entry pending-then-confirmed history: creation records no
history entries). -/
theorem C6_theorem :
    ∃ b, (createBooking emptyStore true sampleReq sampleRand 1297 sampleRefRand
        (AmadeusResult.ok "AB123") 1000).2 = Except.ok b ∧
      b.status = BookingStatus.confirmed ∧
      b.pricing.totalPrice = 29999/100 ∧
      b.amadeusOrderId = some "AB123" ∧
      b.statusHistory = [] := by
  refine ⟨_, rfl, rfl, ?_, rfl, rfl⟩
  show List.foldl (fun s o => s + o.price.total) 0 sampleReq.flightOffers = 29999/100
  simp [sampleReq, sampleOffer]

/-- Counterexample for C6: the scenario's reservation does not carry the
claimed two-entry `pending`, `confirmed` status history — the Create
succeeds but the history's statuses are not that sequence (the history
is empty). -/
theorem C6_counterexample :
    (createBooking emptyStore true sampleReq sampleRand 1297 sampleRefRand
      (AmadeusResult.ok "AB123") 1000).2.toOption.isSome = true ∧
    ((createBooking emptyStore true sampleReq sampleRand 1297 sampleRefRand
      (AmadeusResult.ok "AB123") 1000).2.toOption.any fun b =>
        b.statusHistory.map StatusHistoryEntry.status ==
          [BookingStatus.pending, BookingStatus.confirmed]) = false := by
  refine ⟨by decide, by decide⟩

/-- Claim C9 (amended): `updateBooking` applies the patch to any found
reservation unconditionally — it succeeds whatever the current status
and however close the departure is, never returning a NotEditable
rejection; a truthy contact-email patch is always applied. -/
theorem C9_theorem (b : Booking) (upd : BookingUpdateRequest) (now : Nat) :
    ∃ b2, updateBooking (some b) upd now = Except.ok b2 ∧
      (∀ cu e, upd.contactInfo = some cu → cu.email = some e → e ≠ "" →
        b2.contactInfo.email = e) := by
  obtain ⟨b2, h1, _, _, hc⟩ := updateBooking_ok b upd now
  refine ⟨b2, h1, ?_⟩
  intro cu e hcu he hne
  rw [hcu] at hc
  simp only at hc
  rw [hc]
  simp [applyContactUpdate, jsSet, he, hne]

/-- Witness for C9: the patch is applied to the concrete expired (hence
non-editable per the claim) reservation. -/
theorem C9_witness :
    ∃ b2, updateBooking (some expiredBooking) samplePatch 99 = Except.ok b2 ∧
      b2.contactInfo.email = "new@example.com" := by
  obtain ⟨b2, h1, h2⟩ := C9_theorem expiredBooking samplePatch 99
  exact ⟨b2, h1, h2 _ _ rfl rfl (by decide)⟩

/-- Counterexample for C9: the reservation is `expired`, not
`confirmed`, yet `updateBooking` neither returns a NotEditable error nor
leaves it unchanged — it succeeds and applies the contact-email patch. -/
theorem C9_counterexample :
    expiredBooking.status ≠ BookingStatus.confirmed ∧
    (updateBooking (some expiredBooking) samplePatch 99).toOption.isSome = true ∧
    ((updateBooking (some expiredBooking) samplePatch 99).toOption.any fun b2 =>
      b2.contactInfo.email == "new@example.com") = true := by
  refine ⟨by decide, by decide, by decide⟩

end Skybooker
